import Mathlib

/-!
Shallow embedding of the temporal-python-template repository
(src/workflows/http/activities.py, http_workflow.py, worker.py) and proofs
of the specified properties.

The repository delegates durable execution to the external temporalio
engine, HTTP to aiohttp, and distribution to ray.  Definitions below that
embed those external contracts (rather than code under src/) carry a doc
comment saying so; they follow the contract the spec states for them.
-/

/-- An HTTP response as observed by the activity: a status code and a
textual body.  Models the aiohttp response object used in activities.py;
`response.text()` is the `body` field. -/
structure HttpResponse where
  status : Nat
  body : String
deriving DecidableEq

/-- A network-level failure (connection error, DNS failure, ...) raised by
the HTTP client before any response is obtained.  Carries its message so
that cause preservation can be stated. -/
structure NetError where
  cause : String
deriving DecidableEq

/-- `http_get` from src/workflows/http/activities.py: performs one GET on
the supplied URL against the ambient network `net` and returns the response
body text.  The source has no try/except, so a client error propagates
uncaught; the source never inspects `response.status`. -/
def http_get (net : String → Except NetError HttpResponse) (url : String) :
    Except NetError String := do
  let response ← net url
  pure response.body

/-- One activity invocation command issued by a workflow: the activity
name, its argument, and the start-to-close timeout (in seconds) it is
scheduled with. -/
structure ActivityCommand where
  activityName : String
  argument : String
  start_to_close_timeout : Nat
deriving DecidableEq

/-- Observable behavior of the environment during one workflow execution:
what the network returns for each URL, and how long (in whole seconds) the
external call takes. -/
structure ActivityEnv where
  net : String → Except NetError HttpResponse
  duration : String → Nat

/-- Terminal result of one activity invocation as delivered back to the
workflow by the engine. -/
inductive ActivityResult where
  | value : String → ActivityResult
  | failed : NetError → ActivityResult
  | timedOut : ActivityResult
deriving DecidableEq

/-- Modelled from the spec (the temporalio engine is an external dependency,
not code under src/): execution of a single activity command.  Per spec
sections 4.2 and 7, if the external call does not complete within the
start-to-close timeout the engine delivers a distinct Timeout failure;
otherwise the registered activity function (`http_get`, the only one) runs
and its value or failure is delivered back unchanged. -/
def executeActivity (env : ActivityEnv) (cmd : ActivityCommand) : ActivityResult :=
  if cmd.start_to_close_timeout < env.duration cmd.argument then
    ActivityResult.timedOut
  else
    match http_get env.net cmd.argument with
    | Except.ok s => ActivityResult.value s
    | Except.error e => ActivityResult.failed e

/-- Terminal outcome of a workflow execution, as recorded by the engine. -/
inductive WorkflowOutcome where
  | completed : String → WorkflowOutcome
  | activityFailure : NetError → WorkflowOutcome
  | timeoutFailure : WorkflowOutcome
deriving DecidableEq

/-- Result of running a workflow: its terminal outcome together with the
list of activity commands the workflow function issued, in order. -/
structure WorkflowRun where
  outcome : WorkflowOutcome
  activityCalls : List ActivityCommand
deriving DecidableEq

/-- The single activity command issued by `HttpWorkflow.run`
(http_workflow.py lines 20-24): activity `http_get`, argument the url,
start_to_close_timeout = timedelta(seconds=3). -/
def HttpWorkflow.command (url : String) : ActivityCommand :=
  { activityName := "http_get", argument := url, start_to_close_timeout := 3 }

/-- `HttpWorkflow.run` from src/workflows/http/http_workflow.py: awaits
`workflow.execute_activity(http_get, url, start_to_close_timeout=3s)` and
returns its value.  The function contains no try/except, so an activity
failure or timeout failure delivered by the engine propagates and becomes
the workflow execution terminal failure. -/
def HttpWorkflow.run (env : ActivityEnv) (url : String) : WorkflowRun :=
  { outcome :=
      match executeActivity env (HttpWorkflow.command url) with
      | ActivityResult.value s => WorkflowOutcome.completed s
      | ActivityResult.failed e => WorkflowOutcome.activityFailure e
      | ActivityResult.timedOut => WorkflowOutcome.timeoutFailure
    activityCalls := [HttpWorkflow.command url] }

/-- A workflow terminal failure as surfaced to the external caller. -/
inductive WorkflowFailure where
  | activityFailure : NetError → WorkflowFailure
  | timeoutFailure : WorkflowFailure
deriving DecidableEq

/-- Modelled from the spec (section 6, the temporalio client is an external
dependency): the blocking submission call `execute_workflow` waits for the
terminal state of the workflow execution and returns its result, or raises
its terminal failure, preserving the cause. -/
def execute_workflow (env : ActivityEnv) (url : String) :
    Except WorkflowFailure String :=
  match (HttpWorkflow.run env url).outcome with
  | WorkflowOutcome.completed s => Except.ok s
  | WorkflowOutcome.activityFailure e =>
      Except.error (WorkflowFailure.activityFailure e)
  | WorkflowOutcome.timeoutFailure => Except.error WorkflowFailure.timeoutFailure

/-- Concrete environment: every URL answers 200 "pong" within 1 second. -/
def pongEnv : ActivityEnv :=
  { net := fun _ => Except.ok { status := 200, body := "pong" }
    duration := fun _ => 1 }

/-- Concrete environment: every URL answers after 5 seconds. -/
def slowEnv : ActivityEnv :=
  { net := fun _ => Except.ok { status := 200, body := "late" }
    duration := fun _ => 5 }

/-- Concrete environment: every URL fails immediately with a connection
error. -/
def downEnv : ActivityEnv :=
  { net := fun _ => Except.error { cause := "connection refused" }
    duration := fun _ => 0 }

/-- Concrete environment: every URL answers 404 "not found" within 1
second. -/
def notFoundEnv : ActivityEnv :=
  { net := fun _ => Except.ok { status := 404, body := "not found" }
    duration := fun _ => 1 }

/-- Python-side defaults of worker.py: Temporal server address. -/
def default_temporal_server_url : String := "localhost:7233"

/-- Python-side defaults of worker.py: task queue name. -/
def default_task_queue : String := "http-task-queue"

/-- Python-side defaults of worker.py: maximum concurrent activities. -/
def default_max_concurrent_activities : Nat := 5

/-- Python-side defaults of worker.py: number of Ray worker replicas. -/
def default_num_workers : Nat := 3

/-- Settings of the library Worker object built in `start_worker`
(worker.py lines 58-64): task queue, registered workflow types, registered
activity types, and the size of the ThreadPoolExecutor passed as
activity_executor. -/
structure WorkerSettings where
  taskQueue : String
  workflows : List String
  activities : List String
  activityExecutorSize : Nat
deriving DecidableEq

/-- State of a `TemporalWorkerTask` Ray actor (worker.py lines 24-46).
The client field is modelled by the server address it is connected to. -/
structure TemporalWorkerTask where
  temporal_server_url : String
  task_queue : String
  max_concurrent_activities : Nat
  client : Option String
  worker : Option WorkerSettings
deriving DecidableEq

/-- `TemporalWorkerTask.__init__` (worker.py lines 28-46): stores the
configuration tuple and initializes both the client and worker fields to
None. -/
def TemporalWorkerTask.init (url queue : String) (mca : Nat) : TemporalWorkerTask :=
  { temporal_server_url := url
    task_queue := queue
    max_concurrent_activities := mca
    client := none
    worker := none }

/-- Lifecycle events of one worker replica, in the order `start_worker`
performs them. -/
inductive WorkerEvent where
  | connect : String → WorkerEvent
  | register : String → List String → List String → WorkerEvent
  | poll : WorkerEvent
deriving DecidableEq

/-- Startup failures of a worker replica. -/
inductive StartupError where
  | connectionFailure : StartupError
deriving DecidableEq

/-- `start_worker` (worker.py lines 48-73).  The Boolean `connected`
abstracts whether `Client.connect` succeeds; on failure the exception
propagates and the fields stay as `__init__` left them.  On success the
replica connects, builds the Worker object — registering the HttpWorkflow
workflow type and the http_get activity type against the configured task
queue, with a ThreadPoolExecutor of size max_concurrent_activities — and
then awaits `worker.run()`, the final, blocking event of the trace.
Note: worker.py imports http_get from the module name http_activities while
the activity definition under src/ lives in activities.py (the module
http_workflow.py imports); both names denote the single http_get activity,
embedded here once. -/
def TemporalWorkerTask.start_worker (t : TemporalWorkerTask) (connected : Bool) :
    (Except StartupError (List WorkerEvent)) × TemporalWorkerTask :=
  if connected then
    (Except.ok [WorkerEvent.connect t.temporal_server_url,
                WorkerEvent.register t.task_queue ["HttpWorkflow"] ["http_get"],
                WorkerEvent.poll],
     { t with client := some t.temporal_server_url,
              worker := some { taskQueue := t.task_queue,
                               workflows := ["HttpWorkflow"],
                               activities := ["http_get"],
                               activityExecutorSize := t.max_concurrent_activities } })
  else
    (Except.error StartupError.connectionFailure, t)

/-- The two cleanup calls `shutdown` can make. -/
inductive ShutdownAction where
  | worker_shutdown : ShutdownAction
  | client_close : ShutdownAction
deriving DecidableEq

/-- The Python error raised by calling a method on None. -/
inductive PyError where
  | attribute_error_none : PyError
deriving DecidableEq

/-- Calling a method on an optional Python attribute: raises
AttributeError when the attribute is None.  Used to show that the
truthiness guards in `shutdown` make its calls safe. -/
def callOn {α : Type} (o : Option α) (a : ShutdownAction) :
    Except PyError ShutdownAction :=
  match o with
  | some _ => Except.ok a
  | none => Except.error PyError.attribute_error_none

/-- `shutdown` (worker.py lines 75-81): `if self.worker:
self.worker.shutdown()` then `if self.client: await self.client.close()`;
each method call is guarded by the truthiness of its field. -/
def TemporalWorkerTask.shutdown (t : TemporalWorkerTask) :
    Except PyError (List ShutdownAction) := do
  let w ← match t.worker with
    | some w0 => do
        let a ← callOn (some w0) ShutdownAction.worker_shutdown
        pure [a]
    | none => pure []
  let c ← match t.client with
    | some c0 => do
        let a ← callOn (some c0) ShutdownAction.client_close
        pure [a]
    | none => pure []
  pure (w ++ c)

/-- Modelled from the spec (ThreadPoolExecutor is an external dependency):
the fixed-size execution pool of spec section 4.3.  `limit` is the
max_workers bound, `running` the tasks currently executing, `queued` the
dispatched tasks waiting for a slot. -/
structure ExecutionPool where
  limit : Nat
  running : Nat
  queued : Nat
deriving DecidableEq

/-- A fresh pool of the given size: nothing running, nothing queued. -/
def ExecutionPool.start (n : Nat) : ExecutionPool :=
  { limit := n, running := 0, queued := 0 }

/-- Dispatch of one more activity task to the pool: it starts executing if
a slot is free, otherwise it joins the queue. -/
def ExecutionPool.submit (p : ExecutionPool) : ExecutionPool :=
  if p.running < p.limit then { p with running := p.running + 1 }
  else { p with queued := p.queued + 1 }

/-- Completion of one executing task: its slot is released and, if any
task is queued, that task immediately takes the freed slot. -/
def ExecutionPool.finish (p : ExecutionPool) : ExecutionPool :=
  if p.running = 0 then p
  else if 0 < p.queued then { p with queued := p.queued - 1 }
  else { p with running := p.running - 1 }

/-- An observable pool event: a dispatch or a completion. -/
inductive PoolOp where
  | submit : PoolOp
  | finish : PoolOp
deriving DecidableEq

/-- One pool transition. -/
def ExecutionPool.step (p : ExecutionPool) (op : PoolOp) : ExecutionPool :=
  match op with
  | PoolOp.submit => p.submit
  | PoolOp.finish => p.finish

/-- The pool state reached from a fresh pool of size `n` after a sequence
of dispatches and completions. -/
def ExecutionPool.exec (n : Nat) (ops : List PoolOp) : ExecutionPool :=
  ops.foldl ExecutionPool.step (ExecutionPool.start n)

/-- Observable events of the spawning process (worker.py lines 104-139):
constructing a replica actor with its configuration, issuing the
immediately-returning remote start call for replica i, and blocking on the
object ref of replica i while waiting for it to finish. -/
inductive RayEvent where
  | createReplica : Nat → TemporalWorkerTask → RayEvent
  | issueStart : Nat → RayEvent
  | rayGet : Nat → RayEvent
deriving DecidableEq

/-- Whether an event is the issuing of a remote start call. -/
def RayEvent.isStartCall : RayEvent → Bool
  | RayEvent.issueStart _ => true
  | _ => false

/-- Whether an event is a blocking wait on a replica object ref. -/
def RayEvent.isWait : RayEvent → Bool
  | RayEvent.rayGet _ => true
  | _ => false

/-- The per-replica launch trace of the loop in `run_ray_worker`
(worker.py lines 106-116): for each index, construct the actor with the
configuration tuple, then issue `start_worker.remote()`, which returns
immediately. -/
def launchEvents (t0 : TemporalWorkerTask) (idxs : List Nat) : List RayEvent :=
  idxs.flatMap (fun i => [RayEvent.createReplica i t0, RayEvent.issueStart i])

/-- `run_ray_worker` (worker.py lines 84-118): constructs `num_workers`
replicas, each with exactly the configuration tuple {server address, task
queue, max concurrent activities} passed in, issues each start call, and
returns the list of object refs (modelled as the list of constructed
replica states) without waiting on any of them. -/
def run_ray_worker (url queue : String) (mca num_workers : Nat) :
    List RayEvent × List TemporalWorkerTask :=
  (launchEvents (TemporalWorkerTask.init url queue mca) (List.range num_workers),
   (List.range num_workers).map (fun _ => TemporalWorkerTask.init url queue mca))

/-- The waiting phase of `main` (worker.py line 139): one blocking wait per
returned object ref, in order. -/
def worker_wait_events (k : Nat) : List RayEvent :=
  (List.range k).map RayEvent.rayGet

/-- The body of `main` between runtime initialization and teardown: the
launch trace of `run_ray_worker` followed by the waits on all refs. -/
def main_body (u q : String) (m k : Nat) : List RayEvent :=
  (run_ray_worker u q m k).1 ++ worker_wait_events k

/-- Top-level events of `main` (worker.py lines 121-151). -/
inductive MainEvent where
  | ray_init : MainEvent
  | launch : RayEvent → MainEvent
  | ray_shutdown : MainEvent
deriving DecidableEq

/-- `main` (worker.py lines 121-151): initialize the Ray runtime only when
it is not already initialized, run the body (launch all replicas with the
documented defaults, then wait on them), and in the finally clause shut
Ray down.  `steps` models how far the body runs before a
KeyboardInterrupt or exception cuts it short; the finally clause runs in
every case. -/
def main_trace (ray_already_initialized : Bool) (steps : Nat) : List MainEvent :=
  (if ray_already_initialized then [] else [MainEvent.ray_init]) ++
  ((main_body default_temporal_server_url default_task_queue
      default_max_concurrent_activities default_num_workers).map
        MainEvent.launch).take steps ++
  [MainEvent.ray_shutdown]

/-- C1: `HttpWorkflow.run(u)` invokes the `http_get` activity exactly once,
with `u` as its argument, and when the activity delivers a value the
workflow returns it unchanged (identity pass-through). -/
theorem http_workflow_run_identity_pass_through (env : ActivityEnv) (u s : String)
    (h : executeActivity env (HttpWorkflow.command u) = ActivityResult.value s) :
    (HttpWorkflow.run env u).activityCalls = [HttpWorkflow.command u]
    ∧ (HttpWorkflow.command u).activityName = "http_get"
    ∧ (HttpWorkflow.command u).argument = u
    ∧ (HttpWorkflow.run env u).outcome = WorkflowOutcome.completed s := by
  refine ⟨rfl, rfl, rfl, ?_⟩
  simp [HttpWorkflow.run, h]

/-- Witness for C1 at a concrete environment where the endpoint answers
"pong": the workflow issues the single http_get command and completes with
"pong". -/
theorem http_workflow_run_identity_pass_through_witness :
    (HttpWorkflow.run pongEnv "https://example.test/ping").activityCalls
        = [HttpWorkflow.command "https://example.test/ping"]
    ∧ (HttpWorkflow.command "https://example.test/ping").activityName = "http_get"
    ∧ (HttpWorkflow.command "https://example.test/ping").argument
        = "https://example.test/ping"
    ∧ (HttpWorkflow.run pongEnv "https://example.test/ping").outcome
        = WorkflowOutcome.completed "pong" :=
  http_workflow_run_identity_pass_through pongEnv "https://example.test/ping" "pong" rfl

/-- C2: the single activity call is bounded by a start-to-close timeout of
exactly 3 seconds; when the external call takes longer than 3 seconds the
workflow execution terminates with a Timeout failure, never a successful
result, and the caller receives the timeout failure. -/
theorem http_workflow_timeout_bound (env : ActivityEnv) (u : String)
    (h : 3 < env.duration u) :
    ((HttpWorkflow.run env u).activityCalls.map ActivityCommand.start_to_close_timeout)
        = [3]
    ∧ (HttpWorkflow.run env u).outcome = WorkflowOutcome.timeoutFailure
    ∧ (∀ s, (HttpWorkflow.run env u).outcome ≠ WorkflowOutcome.completed s)
    ∧ execute_workflow env u = Except.error WorkflowFailure.timeoutFailure := by
  have hx : executeActivity env (HttpWorkflow.command u) = ActivityResult.timedOut := by
    simp [executeActivity, HttpWorkflow.command, h]
  refine ⟨rfl, ?_, ?_, ?_⟩
  · simp [HttpWorkflow.run, hx]
  · intro s
    simp [HttpWorkflow.run, hx]
  · simp [execute_workflow, HttpWorkflow.run, hx]

/-- Witness for C2 at a concrete environment whose endpoint takes 5
seconds against the 3 second bound. -/
theorem http_workflow_timeout_bound_witness :
    ((HttpWorkflow.run slowEnv "https://example.test/slow").activityCalls.map
        ActivityCommand.start_to_close_timeout) = [3]
    ∧ (HttpWorkflow.run slowEnv "https://example.test/slow").outcome
        = WorkflowOutcome.timeoutFailure
    ∧ (HttpWorkflow.run slowEnv "https://example.test/slow").outcome
        ≠ WorkflowOutcome.completed "late"
    ∧ execute_workflow slowEnv "https://example.test/slow"
        = Except.error WorkflowFailure.timeoutFailure := by
  have h := http_workflow_timeout_bound slowEnv "https://example.test/slow" (by decide)
  exact ⟨h.1, h.2.1, h.2.2.1 "late", h.2.2.2⟩

/-- C7: a failure raised inside `http_get` is not caught anywhere: it
propagates out of the activity, becomes the workflow terminal failure, and
reaches the external caller of the blocking submission call, with the
original cause preserved at every step. -/
theorem activity_error_propagation (env : ActivityEnv) (u : String) (e : NetError)
    (hnet : env.net u = Except.error e) (hdur : env.duration u ≤ 3) :
    http_get env.net u = Except.error e
    ∧ (HttpWorkflow.run env u).outcome = WorkflowOutcome.activityFailure e
    ∧ execute_workflow env u = Except.error (WorkflowFailure.activityFailure e) := by
  have hhg : http_get env.net u = Except.error e := by
    simp [http_get, hnet]
  have hx : executeActivity env (HttpWorkflow.command u)
      = ActivityResult.failed e := by
    simp [executeActivity, HttpWorkflow.command, Nat.not_lt.mpr hdur, hhg]
  exact ⟨hhg, by simp [HttpWorkflow.run, hx],
    by simp [execute_workflow, HttpWorkflow.run, hx]⟩

/-- Witness for C7 at a concrete environment where every connection is
refused: the same cause is visible at the activity, the workflow, and the
caller. -/
theorem activity_error_propagation_witness :
    http_get downEnv.net "https://bad.example.test"
        = Except.error { cause := "connection refused" }
    ∧ (HttpWorkflow.run downEnv "https://bad.example.test").outcome
        = WorkflowOutcome.activityFailure { cause := "connection refused" }
    ∧ execute_workflow downEnv "https://bad.example.test"
        = Except.error (WorkflowFailure.activityFailure
            { cause := "connection refused" }) :=
  activity_error_propagation downEnv "https://bad.example.test"
    { cause := "connection refused" } rfl (by decide)

/-- C10: whenever a response is obtained, `http_get` returns its body as a
successful result regardless of status code, and a workflow calling a
reachable but erroring endpoint completes successfully with that body;
`http_get` fails only when no response at all was obtained. -/
theorem http_get_returns_body_any_status (env : ActivityEnv) (u : String) :
    (∀ r : HttpResponse, env.net u = Except.ok r →
        http_get env.net u = Except.ok r.body)
    ∧ (∀ r : HttpResponse, env.net u = Except.ok r → env.duration u ≤ 3 →
        (HttpWorkflow.run env u).outcome = WorkflowOutcome.completed r.body)
    ∧ (∀ e : NetError, http_get env.net u = Except.error e →
        env.net u = Except.error e) := by
  refine ⟨?_, ?_, ?_⟩
  · intro r hr
    simp [http_get, hr]
  · intro r hr hd
    have hx : executeActivity env (HttpWorkflow.command u)
        = ActivityResult.value r.body := by
      simp [executeActivity, HttpWorkflow.command, Nat.not_lt.mpr hd, http_get, hr]
    simp [HttpWorkflow.run, hx]
  · intro e he
    cases hr : env.net u with
    | ok r => simp [http_get, hr] at he
    | error e0 =>
        have he0 : e0 = e := by
          simpa [http_get, hr] using he
        rw [he0]

/-- Witness for C10 at a concrete environment whose endpoint answers 404
"not found": the activity succeeds with the error page body and the
workflow completes with it. -/
theorem http_get_returns_body_any_status_witness :
    http_get notFoundEnv.net "https://example.test/missing" = Except.ok "not found"
    ∧ (HttpWorkflow.run notFoundEnv "https://example.test/missing").outcome
        = WorkflowOutcome.completed "not found" := by
  have h := http_get_returns_body_any_status notFoundEnv "https://example.test/missing"
  exact ⟨h.1 { status := 404, body := "not found" } rfl,
    h.2.1 { status := 404, body := "not found" } rfl (by decide)⟩

/-- One pool transition preserves the pool size. -/
theorem ExecutionPool.step_limit (p : ExecutionPool) (op : PoolOp) :
    (p.step op).limit = p.limit := by
  cases op
  · show p.submit.limit = p.limit
    unfold ExecutionPool.submit
    split <;> rfl
  · show p.finish.limit = p.limit
    unfold ExecutionPool.finish
    split
    · rfl
    · split <;> rfl

/-- One pool transition keeps the number of running tasks within the pool
size. -/
theorem ExecutionPool.step_running_le (p : ExecutionPool) (op : PoolOp)
    (h : p.running ≤ p.limit) : (p.step op).running ≤ p.limit := by
  cases op
  · show p.submit.running ≤ p.limit
    unfold ExecutionPool.submit
    split
    · next hlt => exact hlt
    · exact h
  · show p.finish.running ≤ p.limit
    unfold ExecutionPool.finish
    split
    · exact h
    · split
      · exact h
      · exact Nat.le_trans (Nat.sub_le _ _) h

/-- Along any sequence of pool transitions the size is preserved and the
running count stays within it. -/
theorem ExecutionPool.foldl_invariant (ops : List PoolOp) (p : ExecutionPool)
    (h : p.running ≤ p.limit) :
    (ops.foldl ExecutionPool.step p).limit = p.limit
    ∧ (ops.foldl ExecutionPool.step p).running ≤ p.limit := by
  induction ops generalizing p with
  | nil => exact ⟨rfl, h⟩
  | cons op rest ih =>
      have hlim := ExecutionPool.step_limit p op
      have hstep := ExecutionPool.step_running_le p op h
      have hrec := ih (p.step op) (by rw [hlim]; exact hstep)
      simp only [List.foldl_cons]
      exact ⟨hrec.1.trans hlim, hlim ▸ hrec.2⟩

/-- Every pool state reachable from a fresh pool of size n has size n. -/
theorem ExecutionPool.exec_limit (n : Nat) (ops : List PoolOp) :
    (ExecutionPool.exec n ops).limit = n :=
  (ExecutionPool.foldl_invariant ops (ExecutionPool.start n)
    (by simp [ExecutionPool.start])).1

/-- Every pool state reachable from a fresh pool of size n runs at most n
tasks. -/
theorem ExecutionPool.exec_running_le (n : Nat) (ops : List PoolOp) :
    (ExecutionPool.exec n ops).running ≤ n :=
  (ExecutionPool.foldl_invariant ops (ExecutionPool.start n)
    (by simp [ExecutionPool.start])).2

/-- C3: the worker passes a fixed-size execution pool of exactly
max_concurrent_activities = N slots (default 5) to the library Worker; in
every state reachable by dispatches and completions at most N activities
run concurrently, and a dispatch arriving with all N slots busy joins the
queue (running count unchanged) instead of executing immediately, while a
completion keeps the bound as the freed slot is handed to a queued task. -/
theorem worker_activity_concurrency_bound (u q : String) (n : Nat)
    (ops : List PoolOp) :
    default_max_concurrent_activities = 5
    ∧ (((TemporalWorkerTask.init u q n).start_worker true).2.worker).map
        WorkerSettings.activityExecutorSize = some n
    ∧ (ExecutionPool.exec n ops).running ≤ n
    ∧ ((ExecutionPool.exec n ops).submit).running ≤ n
    ∧ ((ExecutionPool.exec n ops).submit).running
        = (if (ExecutionPool.exec n ops).running < n
           then (ExecutionPool.exec n ops).running + 1
           else (ExecutionPool.exec n ops).running)
    ∧ ((ExecutionPool.exec n ops).submit).queued
        = (if (ExecutionPool.exec n ops).running < n
           then (ExecutionPool.exec n ops).queued
           else (ExecutionPool.exec n ops).queued + 1)
    ∧ ((ExecutionPool.exec n ops).finish).running ≤ n := by
  have hl := ExecutionPool.exec_limit n ops
  have hr := ExecutionPool.exec_running_le n ops
  have hrl : (ExecutionPool.exec n ops).running ≤ (ExecutionPool.exec n ops).limit := by
    rw [hl]
    exact hr
  refine ⟨rfl, ?_, hr, ?_, ?_, ?_, ?_⟩
  · simp [TemporalWorkerTask.init, TemporalWorkerTask.start_worker]
  · have hs := ExecutionPool.step_running_le (ExecutionPool.exec n ops)
      PoolOp.submit hrl
    rw [hl] at hs
    exact hs
  · unfold ExecutionPool.submit
    rw [hl]
    split <;> simp [*]
  · unfold ExecutionPool.submit
    rw [hl]
    split <;> simp [*]
  · have hs := ExecutionPool.step_running_le (ExecutionPool.exec n ops)
      PoolOp.finish hrl
    rw [hl] at hs
    exact hs

/-- C4: on a successful startup, `start_worker` first connects to the
configured server, then registers the HttpWorkflow workflow type and the
http_get activity type against the configured task queue, and finally
enters the blocking poll loop — the last event of its trace, so the call
does not return before the poll loop exits. -/
theorem start_worker_connect_register_poll (u q : String) (m : Nat) :
    ((TemporalWorkerTask.init u q m).start_worker true).1
      = Except.ok [WorkerEvent.connect u,
                   WorkerEvent.register q ["HttpWorkflow"] ["http_get"],
                   WorkerEvent.poll]
    ∧ Except.map List.getLast? ((TemporalWorkerTask.init u q m).start_worker true).1
      = Except.ok (some WorkerEvent.poll)
    ∧ ((TemporalWorkerTask.init u q m).start_worker true).2.worker
      = some { taskQueue := q, workflows := ["HttpWorkflow"],
               activities := ["http_get"], activityExecutorSize := m } :=
  ⟨rfl, rfl, rfl⟩

/-- C5: `run_ray_worker` with num_workers = K returns exactly K task
references, and every replica is constructed with exactly the
configuration tuple passed in — in particular all K replicas share the one
task-queue name. -/
theorem run_ray_worker_replica_launch (u q : String) (m k : Nat) :
    (run_ray_worker u q m k).2.length = k
    ∧ ((run_ray_worker u q m k).2.all
        (fun t => t == TemporalWorkerTask.init u q m)) = true
    ∧ ((run_ray_worker u q m k).2.all
        (fun t => t.task_queue == q)) = true := by
  refine ⟨?_, ?_, ?_⟩
  · simp [run_ray_worker]
  · simp [run_ray_worker, List.all_eq_true]
  · simp [run_ray_worker, List.all_eq_true, TemporalWorkerTask.init]

/-- C9: `__init__` leaves both the client and the worker field as None,
and `shutdown` guards each cleanup call on its field, so calling it before
`start_worker` has ever run — or after a startup whose connect failed —
completes without raising and performs no cleanup call. -/
theorem shutdown_safe_before_start (u q : String) (m : Nat) :
    (TemporalWorkerTask.init u q m).client = none
    ∧ (TemporalWorkerTask.init u q m).worker = none
    ∧ (TemporalWorkerTask.init u q m).shutdown = Except.ok []
    ∧ (((TemporalWorkerTask.init u q m).start_worker false).2).shutdown
        = Except.ok [] :=
  ⟨rfl, rfl, rfl, rfl⟩

/-- No event of the launch phase is a wait. -/
theorem launchEvents_no_wait (t0 : TemporalWorkerTask) (idxs : List Nat) :
    ∀ e ∈ launchEvents t0 idxs, RayEvent.isWait e = false := by
  intro e he
  rw [launchEvents, List.mem_flatMap] at he
  obtain ⟨i, _, hi⟩ := he
  simp only [List.mem_cons, List.mem_singleton, List.not_mem_nil, or_false] at hi
  rcases hi with h | h <;> subst h <;> rfl

/-- The start calls issued during the launch phase are exactly one per
replica index, in order. -/
theorem launchEvents_filter_start (t0 : TemporalWorkerTask) (idxs : List Nat) :
    (launchEvents t0 idxs).filter RayEvent.isStartCall
      = idxs.map RayEvent.issueStart := by
  induction idxs with
  | nil => rfl
  | cons i rest ih =>
      rw [launchEvents] at ih ⊢
      rw [List.flatMap_cons, List.filter_append, ih]
      rfl

/-- Every event of the waiting phase is a wait. -/
theorem worker_wait_events_all_wait (k : Nat) :
    ∀ e ∈ worker_wait_events k, RayEvent.isWait e = true := by
  intro e he
  rw [worker_wait_events, List.mem_map] at he
  obtain ⟨i, _, hi⟩ := he
  subst hi
  rfl

/-- takeWhile over an append whose first part satisfies the predicate
throughout keeps the whole first part. -/
theorem takeWhile_append_of_all {α : Type} (p : α → Bool) (l1 l2 : List α)
    (h : ∀ e ∈ l1, p e = true) :
    (l1 ++ l2).takeWhile p = l1 ++ l2.takeWhile p := by
  induction l1 with
  | nil => rfl
  | cons a rest ih =>
      have ha : p a = true := h a (List.mem_cons_self a rest)
      rw [List.cons_append, List.takeWhile_cons, if_pos ha,
        ih (fun e he => h e (List.mem_cons_of_mem a he)), List.cons_append]

/-- takeWhile over a list that falsifies the predicate throughout is
empty. -/
theorem takeWhile_eq_nil_of_all_false {α : Type} (p : α → Bool) (l : List α)
    (h : ∀ e ∈ l, p e = false) : l.takeWhile p = [] := by
  cases l with
  | nil => rfl
  | cons a rest =>
      have ha := h a (List.mem_cons_self a rest)
      rw [List.takeWhile_cons, ha]
      rfl

/-- The prefix of the truncated main body holds no runtime
initialization event. -/
theorem count_ray_init_in_body (steps : Nat) (l : List RayEvent) :
    ((l.map MainEvent.launch).take steps).count MainEvent.ray_init = 0 := by
  rw [List.count_eq_zero]
  intro hmem
  have hm := List.take_subset steps (l.map MainEvent.launch) hmem
  rw [List.mem_map] at hm
  obtain ⟨r, _, hr⟩ := hm
  simp at hr

/-- The truncated main body holds no runtime teardown event. -/
theorem count_ray_shutdown_in_body (steps : Nat) (l : List RayEvent) :
    ((l.map MainEvent.launch).take steps).count MainEvent.ray_shutdown = 0 := by
  rw [List.count_eq_zero]
  intro hmem
  have hm := List.take_subset steps (l.map MainEvent.launch) hmem
  rw [List.mem_map] at hm
  obtain ⟨r, _, hr⟩ := hm
  simp at hr

/-- C6: in every execution of `main` — however far the body gets before an
interrupt or exception — the Ray runtime is initialized exactly once when
it was not already initialized and never when it was, any initialization
is the very first event (so it precedes every replica launch), and the
runtime is torn down exactly once, as the final event. -/
theorem main_ray_lifecycle (b : Bool) (steps : Nat) :
    (main_trace b steps).count MainEvent.ray_init = (if b then 0 else 1)
    ∧ (main_trace false steps).head? = some MainEvent.ray_init
    ∧ (main_trace b steps).count MainEvent.ray_shutdown = 1
    ∧ (main_trace b steps).getLast? = some MainEvent.ray_shutdown := by
  refine ⟨?_, rfl, ?_, ?_⟩
  · cases b <;>
      simp [main_trace, List.count_append, count_ray_init_in_body,
        List.count_cons, List.count_nil]
  · cases b <;>
      simp [main_trace, List.count_append, count_ray_shutdown_in_body,
        List.count_cons, List.count_nil]
  · rw [main_trace, List.append_assoc, ← List.append_assoc]
    exact List.getLast?_concat _

/-- C8: in the spawning process, every one of the K remote start calls is
issued before the first blocking wait, the waiting phase then waits on
every one of the K replica refs, and a replica start call only returns
once its poll loop exits (the poll event closes its trace). -/
theorem replicas_launched_before_wait (u q : String) (m k : Nat) :
    ((main_body u q m k).takeWhile (fun e => !RayEvent.isWait e)).filter
        RayEvent.isStartCall = (List.range k).map RayEvent.issueStart
    ∧ (main_body u q m k).filter RayEvent.isWait = worker_wait_events k
    ∧ Except.map List.getLast? ((TemporalWorkerTask.init u q m).start_worker true).1
        = Except.ok (some WorkerEvent.poll) := by
  have hno := launchEvents_no_wait (TemporalWorkerTask.init u q m) (List.range k)
  have hall := worker_wait_events_all_wait k
  refine ⟨?_, ?_, rfl⟩
  · rw [main_body,
      takeWhile_append_of_all _ _ _ (fun e he => by rw [hno e he]; rfl),
      takeWhile_eq_nil_of_all_false _ _ (fun e he => by rw [hall e he]; rfl),
      List.append_nil]
    exact launchEvents_filter_start _ _
  · rw [main_body, List.filter_append,
      List.filter_eq_nil_iff.mpr (fun e he => by rw [hno e he]; exact Bool.false_ne_true),
      List.filter_eq_self.mpr hall, List.nil_append]
